import Mathlib

/-
Verification of the Kepler orbit propagator of `src/kepler-test.py`
(class `CelestialBody`, method `position_at_time`).

The Python floats are embedded as real numbers.  Every fallible Python
operation is modelled explicitly: a float division whose divisor is zero
raises `ZeroDivisionError`, and `math.sqrt` of a negative number raises
`ValueError`; both are embedded as `Option.none`.  `math.tan`, which is
total on floats, is embedded as `Real.tan` (total, with Lean's junk value
`tan x = 0` at the poles of the tangent).
-/

open scoped Classical

/-- The `CelestialBody` record of `kepler-test.py`: the constructor stores
`name`, `mass` and the four orbital parameters read from the
`orbital_parameters` dictionary. -/
structure CelestialBody where
  name : String
  mass : ℝ
  eccentricity : ℝ
  semi_major_axis : ℝ
  inclination : ℝ
  orbit_period : ℝ

/-- One Newton-Raphson step of the loop body in `position_at_time`:
`E = E - (E - e*sin(E) - M) / (1 - e*cos(E))`. -/
noncomputable def newtonStep (e M E : ℝ) : ℝ :=
  E - (E - e * Real.sin E - M) / (1 - e * Real.cos E)

/-- The Newton iteration of `position_at_time` as a pure recurrence:
seeded at `E₀ = M`, each step applies `newtonStep`. -/
noncomputable def newtonPure (e M : ℝ) : ℕ → ℝ
  | 0 => M
  | k + 1 => newtonStep e M (newtonPure e M k)

/-- The Newton iteration of `position_at_time` with Python's division
semantics made explicit: the step divides by `1 - e*cos(E)`, and a zero
divisor raises `ZeroDivisionError` (embedded as `none`). -/
noncomputable def newtonIter (e M : ℝ) : ℕ → Option ℝ
  | 0 => some M
  | k + 1 =>
      (newtonIter e M k).bind fun E =>
        if 1 - e * Real.cos E = 0 then none else some (newtonStep e M E)

/-- The mean anomaly computed by `position_at_time`:
`n = 2*pi / orbit_period` and `M = n * t` (the code assumes `T₀ = 0`). -/
noncomputable def mean_anomaly (b : CelestialBody) (t : ℝ) : ℝ :=
  2 * Real.pi / b.orbit_period * t

/-- The true anomaly exactly as `position_at_time` computes it:
`v = 2 * atan(sqrt((1 + e) / (1 - e)) * tan(E / 2))`. -/
noncomputable def trueAnomaly (e E : ℝ) : ℝ :=
  2 * Real.arctan (Real.sqrt ((1 + e) / (1 - e)) * Real.tan (E / 2))

/-- The Cartesian projection of `position_at_time` from the eccentric
anomaly `E` delivered by the Newton loop:
`r = a*(1 - e*cos(E))`, `x = r*cos(v)`, `y = r*sin(v)`,
`z = r*sin(v)*sin(inclination)`. -/
noncomputable def cartesianOf (b : CelestialBody) (E : ℝ) : ℝ × ℝ × ℝ :=
  let v := trueAnomaly b.eccentricity E
  let r := b.semi_major_axis * (1 - b.eccentricity * Real.cos E)
  (r * Real.cos v, r * Real.sin v, r * Real.sin v * Real.sin b.inclination)

/-- The method `CelestialBody.position_at_time` of `kepler-test.py`.  Failure points,
in the order the Python code reaches them: `n = 2*pi/orbit_period` raises
`ZeroDivisionError` when `orbit_period = 0`; each Newton step raises
`ZeroDivisionError` when its divisor `1 - e*cos(E)` is zero; the true
anomaly raises `ZeroDivisionError` when `1 - e = 0` and `ValueError` when
the `sqrt` argument `(1 + e)/(1 - e)` is negative.  All are `none`. -/
noncomputable def position_at_time (b : CelestialBody) (t : ℝ) : Option (ℝ × ℝ × ℝ) :=
  if b.orbit_period = 0 then none
  else
    (newtonIter b.eccentricity (mean_anomaly b t) 10).bind fun E =>
      if b.eccentricity = 1 then none
      else if (1 + b.eccentricity) / (1 - b.eccentricity) < 0 then none
      else some (cartesianOf b E)

/-- The two-argument arctangent, modelled on the spec's `atan2`
(the standard library convention: principal value in `(-pi, pi]`). -/
noncomputable def atan2 (y x : ℝ) : ℝ :=
  if 0 < x then Real.arctan (y / x)
  else if x < 0 then
    (if 0 ≤ y then Real.arctan (y / x) + Real.pi
     else Real.arctan (y / x) - Real.pi)
  else
    (if 0 < y then Real.pi / 2
     else if y < 0 then -(Real.pi / 2)
     else 0)

/-- The true anomaly in the two-argument arctangent form mandated by the
spec (section 4.1 step 4): `v = 2*atan2(sqrt(1+e)*sin(E/2), sqrt(1-e)*cos(E/2))`. -/
noncomputable def trueAnomalyAtan2 (e E : ℝ) : ℝ :=
  2 * atan2 (Real.sqrt (1 + e) * Real.sin (E / 2)) (Real.sqrt (1 - e) * Real.cos (E / 2))

/-- The Cartesian projection with the spec's `atan2` true anomaly in place
of the code's naive form; everything else is as in `cartesianOf`. -/
noncomputable def cartesianOfAtan2 (b : CelestialBody) (E : ℝ) : ℝ × ℝ × ℝ :=
  let v := trueAnomalyAtan2 b.eccentricity E
  let r := b.semi_major_axis * (1 - b.eccentricity * Real.cos E)
  (r * Real.cos v, r * Real.sin v, r * Real.sin v * Real.sin b.inclination)

/-- `position_at_time` with the spec's `atan2` true-anomaly form
substituted for the code's naive `atan(tan)` form (spec section 4.1 step 4);
the remaining steps are unchanged. -/
noncomputable def positionAtTimeAtan2 (b : CelestialBody) (t : ℝ) : Option (ℝ × ℝ × ℝ) :=
  if b.orbit_period = 0 then none
  else
    (newtonIter b.eccentricity (mean_anomaly b t) 10).bind fun E =>
      if b.eccentricity = 1 then none
      else if (1 + b.eccentricity) / (1 - b.eccentricity) < 0 then none
      else some (cartesianOfAtan2 b E)

/-- A circular orbit of period 4 tilted by a quarter turn: the inputs
`eccentricity = 0`, `semi_major_axis = 1`, `inclination = pi/2`,
`orbit_period = 4`. -/
noncomputable def bodyTilted : CelestialBody :=
  ⟨"tilted", 1, 0, 1, Real.pi / 2, 4⟩

/-- A circular equatorial orbit of period 2: at `t = 1` the mean anomaly
is exactly `pi`, so the solver's eccentric anomaly is `pi` and the code
evaluates `tan(pi/2)`. -/
noncomputable def bodyHalfTurn : CelestialBody :=
  ⟨"halfturn", 1, 0, 1, 0, 2⟩

/-- A circular equatorial orbit of period 4, used as a generic
well-behaved witness input. -/
noncomputable def bodyQuarter : CelestialBody :=
  ⟨"quarter", 1, 0, 1, 0, 4⟩

/-- Invalid elements: a negative orbital period. -/
noncomputable def bodyRetrograde : CelestialBody :=
  ⟨"retro", 1, 0, 1, 0, -1⟩

/-- Degenerate elements: `orbit_period = 0`. -/
noncomputable def bodyFixed : CelestialBody :=
  ⟨"fixed", 1, 0, 1, 0, 0⟩

/-- A nearly parabolic orbit, `eccentricity = 0.9999` with
`orbit_period = 2*pi`: at `t = 0.002` the Newton iteration is still far
from a root after its 10 steps. -/
noncomputable def bodySlow : CelestialBody :=
  ⟨"slow", 1, 0.9999, 1, 0, 2 * Real.pi⟩

/- Basic facts about the Newton iteration. -/

lemma newton_denom_pos {e : ℝ} (he : |e| < 1) (E : ℝ) : 0 < 1 - e * Real.cos E := by
  have h1 : |e * Real.cos E| ≤ |e| := by
    rw [abs_mul]
    calc |e| * |Real.cos E| ≤ |e| * 1 :=
          mul_le_mul_of_nonneg_left (Real.abs_cos_le_one E) (abs_nonneg e)
      _ = |e| := mul_one _
  have h2 : e * Real.cos E < 1 := lt_of_le_of_lt (le_trans (le_abs_self _) h1) he
  linarith

lemma newtonIter_eq_pure {e : ℝ} (he : |e| < 1) (M : ℝ) :
    ∀ k, newtonIter e M k = some (newtonPure e M k) := by
  intro k
  induction k with
  | zero => rfl
  | succ k ih =>
      rw [newtonIter, ih, Option.some_bind, if_neg (ne_of_gt (newton_denom_pos he _))]
      rfl

lemma position_eq_some (b : CelestialBody) (t : ℝ) (hP : b.orbit_period ≠ 0)
    (he : |b.eccentricity| < 1) :
    position_at_time b t =
      some (cartesianOf b (newtonPure b.eccentricity (mean_anomaly b t) 10)) := by
  obtain ⟨heL, heR⟩ := abs_lt.mp he
  rw [position_at_time, if_neg hP, newtonIter_eq_pure he, Option.some_bind,
    if_neg (ne_of_lt heR),
    if_neg (not_lt.mpr (div_nonneg (by linarith) (by linarith)))]

lemma positionAtan2_eq_some (b : CelestialBody) (t : ℝ) (hP : b.orbit_period ≠ 0)
    (he : |b.eccentricity| < 1) :
    positionAtTimeAtan2 b t =
      some (cartesianOfAtan2 b (newtonPure b.eccentricity (mean_anomaly b t) 10)) := by
  obtain ⟨heL, heR⟩ := abs_lt.mp he
  rw [positionAtTimeAtan2, if_neg hP, newtonIter_eq_pure he, Option.some_bind,
    if_neg (ne_of_lt heR),
    if_neg (not_lt.mpr (div_nonneg (by linarith) (by linarith)))]

/- With eccentricity zero every Newton step maps the iterate straight back
to the mean anomaly. -/

lemma newtonStep_ecc_zero (M E : ℝ) : newtonStep 0 M E = M := by
  simp [newtonStep]

lemma newtonPure_ecc_zero (M : ℝ) : ∀ k, newtonPure 0 M k = M
  | 0 => rfl
  | k + 1 => by rw [newtonPure, newtonStep_ecc_zero]

lemma position_ecc_zero (b : CelestialBody) (t : ℝ) (hP : b.orbit_period ≠ 0)
    (he : b.eccentricity = 0) :
    position_at_time b t = some (cartesianOf b (mean_anomaly b t)) := by
  rw [position_eq_some b t hP (by rw [he]; norm_num), he, newtonPure_ecc_zero]

/- Shifting the mean anomaly by a full turn shifts every Newton iterate by
a full turn and leaves the projected position unchanged. -/

lemma newtonStep_add_two_pi (e M E : ℝ) :
    newtonStep e (M + 2 * Real.pi) (E + 2 * Real.pi) = newtonStep e M E + 2 * Real.pi := by
  unfold newtonStep
  rw [Real.sin_add_two_pi, Real.cos_add_two_pi]
  ring_nf

lemma newtonPure_add_two_pi (e M : ℝ) :
    ∀ k, newtonPure e (M + 2 * Real.pi) k = newtonPure e M k + 2 * Real.pi
  | 0 => rfl
  | k + 1 => by
      rw [newtonPure, newtonPure_add_two_pi e M k, newtonStep_add_two_pi, newtonPure]

lemma trueAnomaly_add_two_pi (e E : ℝ) :
    trueAnomaly e (E + 2 * Real.pi) = trueAnomaly e E := by
  unfold trueAnomaly
  rw [show (E + 2 * Real.pi) / 2 = E / 2 + Real.pi by ring, Real.tan_add_pi]

lemma cartesianOf_add_two_pi (b : CelestialBody) (E : ℝ) :
    cartesianOf b (E + 2 * Real.pi) = cartesianOf b E := by
  unfold cartesianOf
  rw [trueAnomaly_add_two_pi, Real.cos_add_two_pi]

/- The naive one-argument arctangent form and the two-argument form give
true anomalies whose cosine and sine agree as long as the tangent's
argument `E/2` is not a pole of the tangent. -/

lemma cos_sin_two_atan2 {y x : ℝ} (hx : x ≠ 0) :
    Real.cos (2 * atan2 y x) = Real.cos (2 * Real.arctan (y / x)) ∧
      Real.sin (2 * atan2 y x) = Real.sin (2 * Real.arctan (y / x)) := by
  unfold atan2
  rcases lt_trichotomy x 0 with hneg | hzero | hpos
  · rw [if_neg (not_lt.mpr hneg.le), if_pos hneg]
    by_cases hy : 0 ≤ y
    · rw [if_pos hy, show 2 * (Real.arctan (y / x) + Real.pi) =
        2 * Real.arctan (y / x) + 2 * Real.pi by ring]
      exact ⟨Real.cos_add_two_pi _, Real.sin_add_two_pi _⟩
    · rw [if_neg hy, show 2 * (Real.arctan (y / x) - Real.pi) =
        2 * Real.arctan (y / x) - 2 * Real.pi by ring]
      exact ⟨Real.cos_sub_two_pi _, Real.sin_sub_two_pi _⟩
  · exact absurd hzero hx
  · rw [if_pos hpos]
    exact ⟨rfl, rfl⟩

lemma trueAnomalyAtan2_cos_sin {e E : ℝ} (h0 : 0 ≤ e) (h1 : e < 1)
    (hc : Real.cos (E / 2) ≠ 0) :
    Real.cos (trueAnomalyAtan2 e E) = Real.cos (trueAnomaly e E) ∧
      Real.sin (trueAnomalyAtan2 e E) = Real.sin (trueAnomaly e E) := by
  have hs : 0 < Real.sqrt (1 - e) := Real.sqrt_pos.mpr (by linarith)
  have hx : Real.sqrt (1 - e) * Real.cos (E / 2) ≠ 0 := mul_ne_zero (ne_of_gt hs) hc
  have key : Real.sqrt (1 + e) * Real.sin (E / 2) / (Real.sqrt (1 - e) * Real.cos (E / 2)) =
      Real.sqrt ((1 + e) / (1 - e)) * Real.tan (E / 2) := by
    rw [Real.sqrt_div (by linarith : (0:ℝ) ≤ 1 + e), Real.tan_eq_sin_div_cos]
    field_simp
  unfold trueAnomalyAtan2 trueAnomaly
  rw [← key]
  exact cos_sin_two_atan2 hx

/- Closed-form evaluations at the concrete inputs above. -/

lemma trueAnomaly_ecc_zero (E : ℝ) :
    trueAnomaly 0 E = 2 * Real.arctan (Real.tan (E / 2)) := by
  unfold trueAnomaly
  norm_num

lemma trueAnomaly_zero_pi_div_two : trueAnomaly 0 (Real.pi / 2) = Real.pi / 2 := by
  rw [trueAnomaly_ecc_zero, show Real.pi / 2 / 2 = Real.pi / 4 by ring,
    Real.tan_pi_div_four, Real.arctan_one]
  ring

lemma trueAnomaly_zero_pi : trueAnomaly 0 Real.pi = 0 := by
  rw [trueAnomaly_ecc_zero, show Real.pi / 2 = Real.pi / 2 by rfl, Real.tan_pi_div_two,
    Real.arctan_zero, mul_zero]

lemma trueAnomaly_zero_zero : trueAnomaly 0 0 = 0 := by
  rw [trueAnomaly_ecc_zero]
  norm_num

lemma mean_anomaly_tilted : mean_anomaly bodyTilted 1 = Real.pi / 2 := by
  simp only [mean_anomaly, bodyTilted]
  ring

lemma mean_anomaly_halfTurn : mean_anomaly bodyHalfTurn 1 = Real.pi := by
  simp only [mean_anomaly, bodyHalfTurn]
  ring

lemma mean_anomaly_quarter : mean_anomaly bodyQuarter 1 = Real.pi / 2 := by
  simp only [mean_anomaly, bodyQuarter]
  ring

lemma posTilted : position_at_time bodyTilted 1 = some (0, 1, 1) := by
  rw [position_ecc_zero bodyTilted 1 (by simp [bodyTilted]) rfl, mean_anomaly_tilted]
  simp only [cartesianOf, bodyTilted, trueAnomaly_zero_pi_div_two]
  norm_num [Real.cos_pi_div_two, Real.sin_pi_div_two]

lemma posHalfTurn : position_at_time bodyHalfTurn 1 = some (1, 0, 0) := by
  rw [position_ecc_zero bodyHalfTurn 1 (by simp [bodyHalfTurn]) rfl, mean_anomaly_halfTurn]
  simp only [cartesianOf, bodyHalfTurn, trueAnomaly_zero_pi]
  norm_num [Real.cos_pi, Real.sin_pi]

lemma atan2_one_zero : atan2 1 0 = Real.pi / 2 := by
  rw [atan2, if_neg (lt_irrefl 0), if_neg (lt_irrefl 0), if_pos one_pos]

lemma trueAnomalyAtan2_zero_pi : trueAnomalyAtan2 0 Real.pi = Real.pi := by
  unfold trueAnomalyAtan2
  rw [show (1:ℝ) - 0 = 1 by ring, show (1:ℝ) + 0 = 1 by ring, Real.sqrt_one,
    Real.sin_pi_div_two, Real.cos_pi_div_two]
  norm_num [atan2_one_zero]
  ring

lemma posHalfTurnAtan2 : positionAtTimeAtan2 bodyHalfTurn 1 = some (-1, 0, 0) := by
  rw [positionAtan2_eq_some bodyHalfTurn 1 (by simp [bodyHalfTurn]) (by norm_num [bodyHalfTurn]),
    show bodyHalfTurn.eccentricity = 0 from rfl, newtonPure_ecc_zero, mean_anomaly_halfTurn]
  simp only [cartesianOfAtan2, bodyHalfTurn, trueAnomalyAtan2_zero_pi]
  norm_num [Real.cos_pi, Real.sin_pi]

lemma posRetrograde : position_at_time bodyRetrograde 0 = some (1, 0, 0) := by
  rw [position_ecc_zero bodyRetrograde 0 (by norm_num [bodyRetrograde]) rfl,
    show mean_anomaly bodyRetrograde 0 = 0 by simp [mean_anomaly]]
  simp only [cartesianOf, bodyRetrograde, trueAnomaly_zero_zero]
  norm_num

/- Claim theorems. -/

/-- C1: for every elements with nonzero orbital period and eccentricity in
`[0, 1)` and every `t`, `position_at_time` runs Newton-Raphson on Kepler's
equation seeded at `E₀ = M`, performing exactly 10 iterations of
`E ← E - (E - e*sin(E) - M) / (1 - e*cos(E))`, and the position is
computed from the resulting tenth iterate. -/
theorem C1_newton_ten_steps (b : CelestialBody) (t : ℝ)
    (hP : b.orbit_period ≠ 0) (h0 : 0 ≤ b.eccentricity) (h1 : b.eccentricity < 1) :
    newtonPure b.eccentricity (mean_anomaly b t) 0 = mean_anomaly b t ∧
    (∀ k, newtonPure b.eccentricity (mean_anomaly b t) (k + 1) =
      newtonPure b.eccentricity (mean_anomaly b t) k -
        (newtonPure b.eccentricity (mean_anomaly b t) k -
          b.eccentricity * Real.sin (newtonPure b.eccentricity (mean_anomaly b t) k) -
          mean_anomaly b t) /
        (1 - b.eccentricity * Real.cos (newtonPure b.eccentricity (mean_anomaly b t) k))) ∧
    position_at_time b t =
      some (cartesianOf b (newtonPure b.eccentricity (mean_anomaly b t) 10)) :=
  ⟨rfl, fun _ => rfl, position_eq_some b t hP (abs_lt.mpr ⟨by linarith, h1⟩)⟩

/-- Witness for C1 at the concrete body `bodyQuarter` and `t = 1`. -/
theorem C1_newton_ten_steps_witness :
    position_at_time bodyQuarter 1 =
      some (cartesianOf bodyQuarter (newtonPure bodyQuarter.eccentricity (mean_anomaly bodyQuarter 1) 10)) :=
  (C1_newton_ten_steps bodyQuarter 1 (by norm_num [bodyQuarter])
    (by norm_num [bodyQuarter]) (by norm_num [bodyQuarter])).2.2

/-- C2 counterexample: at `bodyHalfTurn` and `t = 1` the solver yields
`E = pi`, where the naive real-valued `atan(tan(E/2))` form is at a pole of
the tangent; the code's output `(1, 0, 0)` disagrees with the `(−1, 0, 0)`
the two-argument arctangent form produces. -/
theorem C2_counterexample_pole :
    position_at_time bodyHalfTurn 1 = some (1, 0, 0) ∧
    positionAtTimeAtan2 bodyHalfTurn 1 = some (-1, 0, 0) ∧
    position_at_time bodyHalfTurn 1 ≠ positionAtTimeAtan2 bodyHalfTurn 1 := by
  refine ⟨posHalfTurn, posHalfTurnAtan2, ?_⟩
  rw [posHalfTurn, posHalfTurnAtan2]
  norm_num [Prod.ext_iff]

/-- C2 amended: whenever the solver's eccentric anomaly `E` has
`cos(E/2) ≠ 0` (i.e. `E/2` is not a pole of the tangent), the output of
`position_at_time` is exactly as if the two-argument arctangent form were
used for the true anomaly. -/
theorem C2_amended_atan2_agreement (b : CelestialBody) (t : ℝ)
    (hP : b.orbit_period ≠ 0) (h0 : 0 ≤ b.eccentricity) (h1 : b.eccentricity < 1)
    (hc : Real.cos (newtonPure b.eccentricity (mean_anomaly b t) 10 / 2) ≠ 0) :
    position_at_time b t = positionAtTimeAtan2 b t := by
  have he : |b.eccentricity| < 1 := abs_lt.mpr ⟨by linarith, h1⟩
  rw [position_eq_some b t hP he, positionAtan2_eq_some b t hP he]
  obtain ⟨hcos, hsin⟩ := trueAnomalyAtan2_cos_sin h0 h1 hc
  simp only [cartesianOf, cartesianOfAtan2, hcos, hsin]

/-- Witness for the amended C2 at `bodyQuarter`, `t = 1`, where the
solver's `E` is `pi/2` and `cos(E/2) = cos(pi/4) ≠ 0`. -/
theorem C2_amended_atan2_agreement_witness :
    position_at_time bodyQuarter 1 = positionAtTimeAtan2 bodyQuarter 1 :=
  C2_amended_atan2_agreement bodyQuarter 1 (by norm_num [bodyQuarter])
    (by norm_num [bodyQuarter]) (by norm_num [bodyQuarter])
    (by
      rw [show bodyQuarter.eccentricity = 0 from rfl, newtonPure_ecc_zero,
        mean_anomaly_quarter, show Real.pi / 2 / 2 = Real.pi / 4 by ring,
        Real.cos_pi_div_four]
      positivity)

/-- C3: the code computes `y = r*sin(v)` with no `cos(inclination)`
factor.  At `bodyTilted` (inclination `pi/2`) and `t = 1` the returned
`y`-component is `1`, while the claimed `y = r*sin(v)*cos(i)` would be
`1 * cos(pi/2) = 0`. -/
theorem C3_missing_cos_inclination :
    position_at_time bodyTilted 1 = some (0, 1, 1) ∧
    (1 : ℝ) ≠ 1 * Real.cos bodyTilted.inclination := by
  refine ⟨posTilted, ?_⟩
  rw [show bodyTilted.inclination = Real.pi / 2 from rfl, Real.cos_pi_div_two]
  norm_num

/-- C4 counterexample: with `orbit_period = 0` the very first statement
`n = 2*pi/orbit_period` raises `ZeroDivisionError`; the call does not
return `(0, 0, 0)`. -/
theorem C4_counterexample_zero_period :
    position_at_time bodyFixed 3 ≠ some (0, 0, 0) := by
  rw [position_at_time, if_pos (show bodyFixed.orbit_period = 0 from rfl)]
  simp

/-- C4 amended: for `orbit_period = 0`, `position_at_time` raises
`ZeroDivisionError` (returns no position) for every `t`, without running
the Newton solver. -/
theorem C4_amended_zero_period_errors (b : CelestialBody) (t : ℝ)
    (hP : b.orbit_period = 0) : position_at_time b t = none := by
  rw [position_at_time, if_pos hP]

/-- Witness for the amended C4 at `bodyFixed` and `t = 5`. -/
theorem C4_amended_zero_period_errors_witness :
    position_at_time bodyFixed 5 = none :=
  C4_amended_zero_period_errors bodyFixed 5 rfl

/-- C5: the implementation has no residual check and no `ConvergenceError`:
at `bodySlow` (`e = 0.9999`, period `2*pi`) and `t = 0.002` — an input at
which ten Newton steps leave a residual far above `1e-8` — a position is
returned anyway. -/
theorem C5_slow_case_returns_position :
    ∃ p, position_at_time bodySlow 0.002 = some p :=
  ⟨_, position_eq_some bodySlow 0.002
    (by rw [show bodySlow.orbit_period = 2 * Real.pi from rfl]; positivity)
    (by rw [show bodySlow.eccentricity = (0.9999 : ℝ) from rfl]; rw [abs_lt]; norm_num)⟩

/-- C6 counterexample: `orbital_period < 0` is invalid per the claim, yet
the code raises nothing and returns a position. -/
theorem C6_counterexample_negative_period_accepted :
    position_at_time bodyRetrograde 0 = some (1, 0, 0) :=
  posRetrograde

/-- C6 amended: the code performs no element validation and has no
`InvalidElementsError`: for any nonzero orbital period (negative included)
and any eccentricity in `(-1, 1)` (negative included), a position is
returned. -/
theorem C6_amended_no_validation (b : CelestialBody) (t : ℝ)
    (hP : b.orbit_period ≠ 0) (h0 : -1 < b.eccentricity) (h1 : b.eccentricity < 1) :
    ∃ p, position_at_time b t = some p :=
  ⟨_, position_eq_some b t hP (abs_lt.mpr ⟨h0, h1⟩)⟩

/-- Witness for the amended C6 at the invalid body `bodyRetrograde`
(period `-1`) and `t = 2`. -/
theorem C6_amended_no_validation_witness :
    ∃ p, position_at_time bodyRetrograde 2 = some p :=
  C6_amended_no_validation bodyRetrograde 2 (by norm_num [bodyRetrograde])
    (by norm_num [bodyRetrograde]) (by norm_num [bodyRetrograde])

/-- C7: the claim that circular orbits stay at distance
`semi_major_axis` fails: at `bodyTilted` (`e = 0`, `a = 1`,
inclination `pi/2`) and `t = 1` the returned point is `(0, 1, 1)`, whose
squared distance from the origin is `2`, not `a² = 1`. -/
theorem C7_circular_radius_not_constant :
    position_at_time bodyTilted 1 = some (0, 1, 1) ∧
    (0 : ℝ) ^ 2 + 1 ^ 2 + 1 ^ 2 ≠ bodyTilted.semi_major_axis ^ 2 := by
  refine ⟨posTilted, ?_⟩
  rw [show bodyTilted.semi_major_axis = 1 from rfl]
  norm_num

/-- C8: for positive orbital period `P` and eccentricity in `[0, 1)`,
positions at `t` and `t + P` are exactly equal in the real-number
embedding: the mean anomaly shifts by `2*pi`, every Newton iterate shifts
by `2*pi`, and the projection is `2*pi`-periodic. -/
theorem C8_periodicity (b : CelestialBody) (t : ℝ) (hP : 0 < b.orbit_period)
    (h0 : 0 ≤ b.eccentricity) (h1 : b.eccentricity < 1) :
    position_at_time b (t + b.orbit_period) = position_at_time b t := by
  have hP' : b.orbit_period ≠ 0 := ne_of_gt hP
  have he : |b.eccentricity| < 1 := abs_lt.mpr ⟨by linarith, h1⟩
  rw [position_eq_some b _ hP' he, position_eq_some b t hP' he]
  have hM : mean_anomaly b (t + b.orbit_period) = mean_anomaly b t + 2 * Real.pi := by
    unfold mean_anomaly
    field_simp
    ring
  rw [hM, newtonPure_add_two_pi, cartesianOf_add_two_pi]

/-- Witness for C8 at `bodyQuarter`: the position one full period after
`t = 0` equals the position at `t = 0`. -/
theorem C8_periodicity_witness :
    position_at_time bodyQuarter (0 + bodyQuarter.orbit_period) =
      position_at_time bodyQuarter 0 :=
  C8_periodicity bodyQuarter 0 (by norm_num [bodyQuarter]) (by norm_num [bodyQuarter])
    (by norm_num [bodyQuarter])

/-- C9 counterexample: at `bodyHalfTurn` and `t = 1` the Newton loop
delivers `E = pi`, so the code evaluates `tan(E/2) = tan(pi/2)` — the
tangent at an odd multiple of `pi/2`, where `cos(E/2) = 0`. -/
theorem C9_counterexample_tangent_pole :
    newtonIter bodyHalfTurn.eccentricity (mean_anomaly bodyHalfTurn 1) 10 = some Real.pi ∧
    Real.cos (Real.pi / 2) = 0 := by
  constructor
  · rw [show bodyHalfTurn.eccentricity = 0 from rfl, newtonIter_eq_pure (by norm_num) _,
      newtonPure_ecc_zero, mean_anomaly_halfTurn]
  · exact Real.cos_pi_div_two

/-- C9 amended: for positive period and eccentricity in `[0, 1)` the
Newton divisor `1 - e*cos(E)` is nonzero at every iterate, the square
root's argument `(1+e)/(1-e)` is nonnegative, and a (finite, real)
position triple is always returned; only the claim's clause that the
tangent is never evaluated at an odd multiple of `pi/2` fails. -/
theorem C9_amended_welldefined (b : CelestialBody) (t : ℝ) (hP : 0 < b.orbit_period)
    (h0 : 0 ≤ b.eccentricity) (h1 : b.eccentricity < 1) :
    (∀ k E, newtonIter b.eccentricity (mean_anomaly b t) k = some E →
      1 - b.eccentricity * Real.cos E ≠ 0) ∧
    0 ≤ (1 + b.eccentricity) / (1 - b.eccentricity) ∧
    ∃ p, position_at_time b t = some p := by
  have he : |b.eccentricity| < 1 := abs_lt.mpr ⟨by linarith, h1⟩
  exact ⟨fun k E _ => ne_of_gt (newton_denom_pos he E),
    div_nonneg (by linarith) (by linarith),
    _, position_eq_some b t (ne_of_gt hP) he⟩

/-- Witness for the amended C9 at `bodyQuarter` and `t = 1` (the parts of
the conclusion that are free of binders). -/
theorem C9_amended_welldefined_witness :
    0 ≤ (1 + bodyQuarter.eccentricity) / (1 - bodyQuarter.eccentricity) ∧
    ∃ p, position_at_time bodyQuarter 1 = some p :=
  (C9_amended_welldefined bodyQuarter 1 (by norm_num [bodyQuarter])
    (by norm_num [bodyQuarter]) (by norm_num [bodyQuarter])).2

/-- C10: for nonzero period and eccentricity in `[0, 1)` the returned
triple `(x, y, z)` always satisfies `z = y * sin(inclination)` and
`x² + y² = r²` with `r = a*(1 - e*cos(E))` for the solver's tenth
iterate `E`. -/
theorem C10_projection_shape (b : CelestialBody) (t : ℝ) (hP : b.orbit_period ≠ 0)
    (h0 : 0 ≤ b.eccentricity) (h1 : b.eccentricity < 1) :
    ∃ x y z, position_at_time b t = some (x, y, z) ∧
      z = y * Real.sin b.inclination ∧
      x ^ 2 + y ^ 2 =
        (b.semi_major_axis *
          (1 - b.eccentricity * Real.cos (newtonPure b.eccentricity (mean_anomaly b t) 10))) ^ 2 := by
  have he : |b.eccentricity| < 1 := abs_lt.mpr ⟨by linarith, h1⟩
  refine ⟨_, _, _, position_eq_some b t hP he, rfl, ?_⟩
  set E := newtonPure b.eccentricity (mean_anomaly b t) 10
  set v := trueAnomaly b.eccentricity E
  set r := b.semi_major_axis * (1 - b.eccentricity * Real.cos E)
  calc (r * Real.cos v) ^ 2 + (r * Real.sin v) ^ 2
      = r ^ 2 * (Real.sin v ^ 2 + Real.cos v ^ 2) := by ring
    _ = r ^ 2 := by rw [Real.sin_sq_add_cos_sq, mul_one]

/-- Witness for C10 at `bodyQuarter` and `t = 1`. -/
theorem C10_projection_shape_witness :
    ∃ x y z, position_at_time bodyQuarter 1 = some (x, y, z) ∧
      z = y * Real.sin bodyQuarter.inclination ∧
      x ^ 2 + y ^ 2 =
        (bodyQuarter.semi_major_axis *
          (1 - bodyQuarter.eccentricity *
            Real.cos (newtonPure bodyQuarter.eccentricity (mean_anomaly bodyQuarter 1) 10))) ^ 2 :=
  C10_projection_shape bodyQuarter 1 (by norm_num [bodyQuarter])
    (by norm_num [bodyQuarter]) (by norm_num [bodyQuarter])
